import Mathlib

/-!
Verification of the location-tracking and route-refresh subsystem of the
Medisync emergency-dispatch app.

The embedding models the map/tracking screens:
* `MapDirections` — the responder (ambulance) screen: position stream,
  route-refresh gate (`shouldUpdateRoute`), directions fetch with
  straight-line fallback, and the write of the ambulance position to the
  shared alert record.
* `PatientMap` — the patient screen: initial alert fetch, realtime
  subscription handler, and the same directions pipeline guarded by a
  15-second time gate inside `getDirections`.

Modelling conventions:
* JavaScript numbers are modelled as rationals (`ℚ`) — every IEEE double
  is a rational; the transcendental Haversine computation is modelled over
  the reals (`ℝ`), so floating-point rounding is abstracted to exact real
  arithmetic.
* Timestamps (`Date.now()`) are integers (milliseconds).
* The third-party polyline decoder (`@mapbox/polyline`, an external
  library, not part of this repository) is modelled at its boundary: a
  route carries `decodedPolyline : Option (List (ℚ × ℚ))`, `none`
  representing a decode that throws.
* The human-readable route labels (`RouteInfo.distance`/`duration`
  strings) are modelled by provenance-carrying inductives: an API label
  stores the verbatim text; the fallback labels store the numeric payload
  that the source interpolates into the string
  (`distance.toFixed(1) + " km (straight line)"` and
  `Math.ceil(distance / 0.5 * 60) + " mins (estimate)"`).
-/

/-- Coordinate pair, mirroring the `Location` interface of the map screens
(the optional `latitudeDelta`/`longitudeDelta` display spans are used only
for map framing, never in any computation modelled here, and are omitted). -/
structure Location where
  latitude : ℚ
  longitude : ℚ
deriving DecidableEq

/-- `deg2rad` from the map screens: `deg * (Math.PI / 180)`. -/
noncomputable def deg2rad (deg : ℚ) : ℝ :=
  (deg : ℝ) * (Real.pi / 180)

/-- `Math.atan2 y x`, modelled as the argument of the complex number
`x + y·i` (range `(-π, π]`, `atan2 0 0 = 0`, matching JavaScript). -/
noncomputable def atan2 (y x : ℝ) : ℝ :=
  Complex.arg ⟨x, y⟩

/-- `getDistanceFromLatLonInKm`, the Haversine distance with Earth radius
6371 km; defined verbatim (up to real-number abstraction) in all three map
screens. -/
noncomputable def getDistanceFromLatLonInKm (lat1 lon1 lat2 lon2 : ℚ) : ℝ :=
  let R : ℝ := 6371
  let dLat := deg2rad (lat2 - lat1)
  let dLon := deg2rad (lon2 - lon1)
  let a :=
    Real.sin (dLat / 2) * Real.sin (dLat / 2) +
      Real.cos (deg2rad lat1) * Real.cos (deg2rad lat2) *
        (Real.sin (dLon / 2) * Real.sin (dLon / 2))
  let c := 2 * atan2 (Real.sqrt a) (Real.sqrt (1 - a))
  R * c

/-- Distance label of a `RouteInfo`: either the first leg's
`distance.text` taken verbatim from the directions API, or the fallback
straight-line label rendered from a Haversine distance
(`d.toFixed(1) + " km (straight line)"`). -/
inductive DistanceLabel where
  | fromApi (text : String)
  | straightLine (km : ℝ)

/-- Duration label of a `RouteInfo`: either the first leg's
`duration.text` verbatim, or the fallback estimate rendered from a minute
count (`mins + " mins (estimate)"`). -/
inductive DurationLabel where
  | fromApi (text : String)
  | estimate (mins : ℤ)

/-- The `RouteInfo` state of the map screens (`{distance, duration}`). -/
structure RouteInfo where
  distance : DistanceLabel
  duration : DurationLabel

/-- A route info is the straight-line fallback exactly when its distance
label carries the `"(straight line)"` rendering. -/
def RouteInfo.isFallback : RouteInfo → Bool
  | ⟨DistanceLabel.straightLine _, _⟩ => true
  | ⟨DistanceLabel.fromApi _, _⟩ => false

/-- One leg of a directions API route: the human-readable
`distance.text` and `duration.text` fields. -/
structure DirectionsLeg where
  distanceText : String
  durationText : String

/-- One route of a directions API response. `decodedPolyline` is the
output of the external polyline decoder applied to
`overview_polyline.points`: `none` models a malformed encoding (or missing
field) on which the decoder throws. -/
structure DirectionsRoute where
  decodedPolyline : Option (List (ℚ × ℚ))
  legs : List DirectionsLeg

/-- A parsed directions API response body. -/
structure DirectionsResponse where
  status : String
  routes : List DirectionsRoute

/-- Outcome of the `fetch` of the directions URL: a network error (or
non-JSON body), or a parsed response. -/
inductive FetchOutcome where
  | networkError
  | response (data : DirectionsResponse)

namespace MapDirections

/-- The responder screen's route-related state:
`routeCoordinates`, `routeInfo` and `lastRouteFetchTime`. -/
structure TrackState where
  routeCoordinates : List Location
  routeInfo : Option RouteInfo
  lastRouteFetchTime : ℤ

/-- `shouldUpdateRoute` of the responder screen: `true` when there is no
prior `origin` or no route has been computed yet; otherwise true iff at
least 15 s passed since the last route fetch and the device moved more
than 0.03 km from `origin`. -/
noncomputable def shouldUpdateRoute (origin : Option Location)
    (routeCoordinates : List Location) (lastRouteFetchTime currentTime : ℤ)
    (newLocation : Location) : Prop :=
  match origin with
  | none => True
  | some o =>
    if routeCoordinates.length = 0 then True
    else
      currentTime - lastRouteFetchTime > 15000 ∧
        getDistanceFromLatLonInKm newLocation.latitude newLocation.longitude
          o.latitude o.longitude > 0.03

/-- `fallbackDirections` of the responder screen: replaces the route with
the 2-point straight line `[start, end]`, the straight-line distance label
and the `ceil(d / 0.5 * 60)`-minute estimate. -/
noncomputable def fallbackDirections (start stop : Location)
    (s : TrackState) : TrackState :=
  let points : List Location :=
    [⟨start.latitude, start.longitude⟩, ⟨stop.latitude, stop.longitude⟩]
  let distance :=
    getDistanceFromLatLonInKm start.latitude start.longitude
      stop.latitude stop.longitude
  { s with
    routeCoordinates := points
    routeInfo :=
      some ⟨DistanceLabel.straightLine distance,
        DurationLabel.estimate ⌈distance / 0.5 * 60⌉⟩ }

/-- `getDirections` of the responder screen as a state transformer:
records the fetch time first, then on a status-`"OK"` response decodes the
overview polyline into `routeCoordinates` and takes the first leg's texts;
any thrown error (network failure, non-OK status, missing route, decoder
throw, missing leg) is caught and handled by `fallbackDirections`. -/
noncomputable def getDirections (start stop : Location)
    (outcome : FetchOutcome) (now : ℤ) (s : TrackState) : TrackState :=
  let s1 : TrackState := { s with lastRouteFetchTime := now }
  match outcome with
  | FetchOutcome.networkError => fallbackDirections start stop s1
  | FetchOutcome.response data =>
    if data.status = "OK" then
      match data.routes with
      | [] => fallbackDirections start stop s1
      | route :: _ =>
        match route.decodedPolyline with
        | none => fallbackDirections start stop s1
        | some points =>
          let routeCoords := points.map fun p => (⟨p.1, p.2⟩ : Location)
          let s2 : TrackState := { s1 with routeCoordinates := routeCoords }
          match route.legs with
          | [] => fallbackDirections start stop s2
          | leg :: _ =>
            { s2 with
              routeInfo :=
                some ⟨DistanceLabel.fromApi leg.distanceText,
                  DurationLabel.fromApi leg.durationText⟩ }
    else fallbackDirections start stop s1

/-- The fetch outcomes on which the responder `getDirections` takes its
catch branch: network error, non-"OK" status, empty `routes`, a polyline
the decoder throws on, or an empty `legs` array. -/
def directionsFetchFailed (outcome : FetchOutcome) : Prop :=
  match outcome with
  | FetchOutcome.networkError => True
  | FetchOutcome.response data =>
    data.status ≠ "OK" ∨ data.routes = [] ∨
      ∃ route rest, data.routes = route :: rest ∧
        (route.decodedPolyline = none ∨ route.legs = [])

open Classical in
/-- The `watchPositionAsync` callback's route-refresh step: when a
destination is set and `shouldUpdateRoute` approves, invoke
`getDirections`; otherwise leave the state untouched. The boolean records
whether the fetch was invoked. -/
noncomputable def watchPositionCallback (destination origin : Option Location)
    (newLoc : Location) (now : ℤ) (outcome : FetchOutcome)
    (s : TrackState) : TrackState × Bool :=
  match destination with
  | none => (s, false)
  | some dest =>
    if shouldUpdateRoute origin s.routeCoordinates s.lastRouteFetchTime now newLoc
    then (getDirections newLoc dest outcome now s, true)
    else (s, false)

/-- The active responder-side write path (the
`[alertId, status, currentLocation]` effect): whenever an alert id, the
status `"responding"` and a current location are present, it writes
`{ambulance_latitude, ambulance_longitude, ambulance_last_updated}` to the
alert record unconditionally — no interval check. The write log collects
`(timestamp, latitude, longitude)` triples that reach the record. -/
def updateWithCurrentLocation (alertId : Option String) (status : String)
    (currentLocation : Option Location) (now : ℤ)
    (writes : List (ℤ × ℚ × ℚ)) : List (ℤ × ℚ × ℚ) :=
  match alertId, currentLocation with
  | some _, some loc =>
    if status = "responding" then
      writes ++ [(now, loc.latitude, loc.longitude)]
    else writes
  | _, _ => writes

end MapDirections

namespace MapDirectionsV1

/-- Minimum time between ambulance-position writes (milliseconds); the
same constant is declared — but never read — in the other variant of the
responder screen. -/
def UPDATE_INTERVAL_MS : ℤ := 3000

/-- `updateAmbulanceLocation` of the first responder-screen variant: skips
the write when no alert id is present or when fewer than
`UPDATE_INTERVAL_MS` milliseconds passed since the last successful write;
otherwise writes the position and, when the backend write succeeds
(`writeOk`), advances the last-update timestamp. Returns the new
last-update timestamp, the write log and whether the write landed. -/
def updateAmbulanceLocation (alertId : Option String) (lat lng : ℚ)
    (now lastUpdateTime : ℤ) (writeOk : Bool)
    (writes : List (ℤ × ℚ × ℚ)) : ℤ × List (ℤ × ℚ × ℚ) × Bool :=
  match alertId with
  | none => (lastUpdateTime, writes, false)
  | some _ =>
    if now - lastUpdateTime < UPDATE_INTERVAL_MS then
      (lastUpdateTime, writes, false)
    else if writeOk then (now, writes ++ [(now, lat, lng)], true)
    else (lastUpdateTime, writes, false)

end MapDirectionsV1

namespace PatientMap

/-- The slice of the shared `alert` row the patient screen consumes.
`none` models a NULL / never-written column. -/
structure AlertRow where
  latitude : Option ℚ
  longitude : Option ℚ
  ambulance_latitude : Option ℚ
  ambulance_longitude : Option ℚ
  ambulance_last_updated : Option ℤ
  status : String

/-- JavaScript truthiness of the conjunction `a && b` of two nullable
numeric columns: both present and both nonzero. Returns the pair of
values when truthy (the code then reads the raw fields). -/
def truthyPair : Option ℚ → Option ℚ → Option (ℚ × ℚ)
  | some a, some b => if a ≠ 0 ∧ b ≠ 0 then some (a, b) else none
  | _, _ => none

/-- The patient screen's state. -/
structure PatientState where
  alertStatus : Option String
  isAmbulanceAssigned : Bool
  patientLocation : Option Location
  ambulanceLocation : Option Location
  lastUpdated : Option ℤ
  routeCoordinates : List Location
  routeInfo : Option RouteInfo
  lastRouteFetchTime : ℤ

/-- The inline catch block of the patient screen's `getDirections`: the
straight-line fallback path and labels (same formulas as the responder
screen's `fallbackDirections`). -/
noncomputable def fallbackStraightLine (start stop : Location)
    (s : PatientState) : PatientState :=
  let distance :=
    getDistanceFromLatLonInKm start.latitude start.longitude
      stop.latitude stop.longitude
  { s with
    routeCoordinates :=
      [⟨start.latitude, start.longitude⟩, ⟨stop.latitude, stop.longitude⟩]
    routeInfo :=
      some ⟨DistanceLabel.straightLine distance,
        DurationLabel.estimate ⌈distance / 0.5 * 60⌉⟩ }

/-- The patient screen's `getDirections`: returns unchanged (and fetches
nothing) when fewer than 15000 ms passed since the last route fetch;
otherwise records the fetch time, fetches, and on any error falls back to
the inline straight-line path. The second component counts network
fetches actually attempted. -/
noncomputable def getDirections (start stop : Location)
    (outcome : FetchOutcome) (now : ℤ)
    (s : PatientState) : PatientState × ℕ :=
  if now - s.lastRouteFetchTime < 15000 then (s, 0)
  else
    let s1 : PatientState := { s with lastRouteFetchTime := now }
    match outcome with
    | FetchOutcome.networkError => (fallbackStraightLine start stop s1, 1)
    | FetchOutcome.response data =>
      if data.status = "OK" then
        match data.routes with
        | [] => (fallbackStraightLine start stop s1, 1)
        | route :: _ =>
          match route.decodedPolyline with
          | none => (fallbackStraightLine start stop s1, 1)
          | some points =>
            let routeCoords := points.map fun p => (⟨p.1, p.2⟩ : Location)
            let s2 : PatientState := { s1 with routeCoordinates := routeCoords }
            match route.legs with
            | [] => (fallbackStraightLine start stop s2, 1)
            | leg :: _ =>
              ({ s2 with
                routeInfo :=
                  some ⟨DistanceLabel.fromApi leg.distanceText,
                    DurationLabel.fromApi leg.durationText⟩ }, 1)
      else (fallbackStraightLine start stop s1, 1)

/-- `fetchAlertData`: the initial read of the alert row. Stores the
status, the patient position when its columns are truthy, and — only when
`ambulance_latitude && ambulance_longitude` is truthy — marks the
ambulance assigned, stores its position and timestamp, and requests
directions from the ambulance to the patient coordinates. -/
noncomputable def fetchAlertData (row : AlertRow) (outcome : FetchOutcome)
    (now : ℤ) (s : PatientState) : PatientState × ℕ :=
  let s1 : PatientState := { s with alertStatus := some row.status }
  let s2 : PatientState :=
    match truthyPair row.latitude row.longitude with
    | some pl => { s1 with patientLocation := some ⟨pl.1, pl.2⟩ }
    | none => s1
  match truthyPair row.ambulance_latitude row.ambulance_longitude with
  | some al =>
    let s3 : PatientState :=
      { s2 with isAmbulanceAssigned := true
                ambulanceLocation := some ⟨al.1, al.2⟩ }
    let s4 : PatientState :=
      match row.ambulance_last_updated with
      | some t => { s3 with lastUpdated := some t }
      | none => s3
    match truthyPair row.latitude row.longitude with
    | some pl => getDirections ⟨al.1, al.2⟩ ⟨pl.1, pl.2⟩ outcome now s4
    | none => (s4, 0)
  | none => ({ s2 with isAmbulanceAssigned := false }, 0)

/-- The realtime subscription handler (`postgres_changes` UPDATE events):
stores the status, recomputes `isAmbulanceAssigned` from the truthiness of
the ambulance columns, and when truthy stores the new ambulance position
and timestamp and requests directions to the stored patient location. -/
noncomputable def handleRealtimeUpdate (row : AlertRow) (outcome : FetchOutcome)
    (now : ℤ) (s : PatientState) : PatientState × ℕ :=
  let s1 : PatientState := { s with alertStatus := some row.status }
  match truthyPair row.ambulance_latitude row.ambulance_longitude with
  | some al =>
    let s2 : PatientState :=
      { s1 with isAmbulanceAssigned := true
                ambulanceLocation := some ⟨al.1, al.2⟩ }
    let s3 : PatientState :=
      match row.ambulance_last_updated with
      | some t => { s2 with lastUpdated := some t }
      | none => s2
    match s3.patientLocation with
    | some ploc => getDirections ⟨al.1, al.2⟩ ploc outcome now s3
    | none => (s3, 0)
  | none => ({ s1 with isAmbulanceAssigned := false }, 0)

/-- Render guard of the ambulance marker:
`ambulanceLocation && isAmbulanceAssigned`. -/
def showsAmbulanceMarker (s : PatientState) : Bool :=
  s.ambulanceLocation.isSome && s.isAmbulanceAssigned

/-- Render guard of the route polyline:
`routeCoordinates.length > 0 && isAmbulanceAssigned`. -/
def showsRoutePolyline (s : PatientState) : Bool :=
  decide (s.routeCoordinates.length > 0) && s.isAmbulanceAssigned

/-- The status box renders the "Waiting for ambulance to be
dispatched..." (awaiting-dispatch) branch exactly when
`isAmbulanceAssigned` is false. -/
def awaitingDispatch (s : PatientState) : Bool :=
  !s.isAmbulanceAssigned

end PatientMap

/-! Helper lemmas. -/

theorem deg2rad_sub_symm (x y : ℚ) : deg2rad (x - y) = -deg2rad (y - x) := by
  unfold deg2rad
  push_cast
  ring

theorem atan2_nonneg (y x : ℝ) (hy : 0 ≤ y) : 0 ≤ atan2 y x := by
  unfold atan2
  exact Complex.arg_nonneg_iff.mpr hy

/-- The Haversine angle `c = 2 * atan2 (sqrt a) (sqrt (1 - a))` is
nonnegative for every real `a`. -/
theorem haversine_c_nonneg (a : ℝ) :
    0 ≤ 2 * atan2 (Real.sqrt a) (Real.sqrt (1 - a)) :=
  mul_nonneg (by norm_num) (atan2_nonneg _ _ (Real.sqrt_nonneg a))

/-- The Haversine intermediate `a` is symmetric under swapping the two
endpoints. -/
theorem haversine_a_symm (lat1 lon1 lat2 lon2 : ℚ) :
    Real.sin (deg2rad (lat2 - lat1) / 2) * Real.sin (deg2rad (lat2 - lat1) / 2) +
      Real.cos (deg2rad lat1) * Real.cos (deg2rad lat2) *
        (Real.sin (deg2rad (lon2 - lon1) / 2) * Real.sin (deg2rad (lon2 - lon1) / 2)) =
    Real.sin (deg2rad (lat1 - lat2) / 2) * Real.sin (deg2rad (lat1 - lat2) / 2) +
      Real.cos (deg2rad lat2) * Real.cos (deg2rad lat1) *
        (Real.sin (deg2rad (lon1 - lon2) / 2) * Real.sin (deg2rad (lon1 - lon2) / 2)) := by
  rw [deg2rad_sub_symm lat1 lat2, deg2rad_sub_symm lon1 lon2]
  simp only [neg_div, Real.sin_neg]
  ring

/-- Unfolding equation for `getDistanceFromLatLonInKm`. -/
theorem getDistanceFromLatLonInKm_def (lat1 lon1 lat2 lon2 : ℚ) :
    getDistanceFromLatLonInKm lat1 lon1 lat2 lon2 =
      6371 * (2 * atan2
        (Real.sqrt
          (Real.sin (deg2rad (lat2 - lat1) / 2) * Real.sin (deg2rad (lat2 - lat1) / 2) +
            Real.cos (deg2rad lat1) * Real.cos (deg2rad lat2) *
              (Real.sin (deg2rad (lon2 - lon1) / 2) * Real.sin (deg2rad (lon2 - lon1) / 2))))
        (Real.sqrt
          (1 - (Real.sin (deg2rad (lat2 - lat1) / 2) * Real.sin (deg2rad (lat2 - lat1) / 2) +
            Real.cos (deg2rad lat1) * Real.cos (deg2rad lat2) *
              (Real.sin (deg2rad (lon2 - lon1) / 2) *
                Real.sin (deg2rad (lon2 - lon1) / 2)))))) :=
  rfl

/-- The refresh-gate decision, unfolded, in the non-bootstrap case. -/
theorem shouldUpdateRoute_spec (o : Location) (rc : List Location)
    (t now : ℤ) (loc : Location) (h : rc ≠ []) :
    MapDirections.shouldUpdateRoute (some o) rc t now loc ↔
      (now - t > 15000 ∧
        getDistanceFromLatLonInKm loc.latitude loc.longitude
          o.latitude o.longitude > 0.03) := by
  unfold MapDirections.shouldUpdateRoute
  dsimp only
  rw [if_neg (by simpa using h)]

/-- On any failing fetch outcome the responder `getDirections` produces
exactly the straight-line fallback state, independent of the previous
route state. -/
theorem getDirections_failed (start stop : Location) (outcome : FetchOutcome)
    (now : ℤ) (s : MapDirections.TrackState)
    (h : MapDirections.directionsFetchFailed outcome) :
    MapDirections.getDirections start stop outcome now s =
      { routeCoordinates := [start, stop]
        routeInfo :=
          some ⟨DistanceLabel.straightLine
              (getDistanceFromLatLonInKm start.latitude start.longitude
                stop.latitude stop.longitude),
            DurationLabel.estimate
              ⌈getDistanceFromLatLonInKm start.latitude start.longitude
                stop.latitude stop.longitude / 0.5 * 60⌉⟩
        lastRouteFetchTime := now } := by
  cases outcome with
  | networkError => rfl
  | response data =>
    obtain ⟨status, routes⟩ := data
    have h2 : status ≠ "OK" ∨ routes = [] ∨
        ∃ route rest, routes = route :: rest ∧
          (route.decodedPolyline = none ∨ route.legs = []) := h
    unfold MapDirections.getDirections
    dsimp only
    rcases h2 with hst | hrt | ⟨⟨poly, legs⟩, rest, hr, hfail⟩
    · rw [if_neg hst]
      rfl
    · subst hrt
      by_cases hst : status = "OK"
      · rw [if_pos hst]
        rfl
      · rw [if_neg hst]
        rfl
    · subst hr
      by_cases hst : status = "OK"
      · rw [if_pos hst]
        rcases hfail with hp | hl
        · have hp2 : poly = none := hp
          subst hp2
          rfl
        · have hl2 : legs = [] := hl
          subst hl2
          cases poly with
          | none => rfl
          | some pts => rfl
      · rw [if_neg hst]
        rfl

/-- On any failing fetch outcome, once the 15-second gate passes, the
patient `getDirections` produces exactly the straight-line fallback state
and one fetch attempt. -/
theorem patientGetDirections_failed (start stop : Location)
    (outcome : FetchOutcome) (now : ℤ) (ps : PatientMap.PatientState)
    (h : MapDirections.directionsFetchFailed outcome)
    (hgate : ¬ now - ps.lastRouteFetchTime < 15000) :
    PatientMap.getDirections start stop outcome now ps =
      ({ ps with
          lastRouteFetchTime := now
          routeCoordinates := [start, stop]
          routeInfo :=
            some ⟨DistanceLabel.straightLine
                (getDistanceFromLatLonInKm start.latitude start.longitude
                  stop.latitude stop.longitude),
              DurationLabel.estimate
                ⌈getDistanceFromLatLonInKm start.latitude start.longitude
                  stop.latitude stop.longitude / 0.5 * 60⌉⟩ }, 1) := by
  unfold PatientMap.getDirections
  rw [if_neg hgate]
  cases outcome with
  | networkError => rfl
  | response data =>
    obtain ⟨status, routes⟩ := data
    have h2 : status ≠ "OK" ∨ routes = [] ∨
        ∃ route rest, routes = route :: rest ∧
          (route.decodedPolyline = none ∨ route.legs = []) := h
    dsimp only
    rcases h2 with hst | hrt | ⟨⟨poly, legs⟩, rest, hr, hfail⟩
    · rw [if_neg hst]
      rfl
    · subst hrt
      by_cases hst : status = "OK"
      · rw [if_pos hst]
        rfl
      · rw [if_neg hst]
        rfl
    · subst hr
      by_cases hst : status = "OK"
      · rw [if_pos hst]
        rcases hfail with hp | hl
        · have hp2 : poly = none := hp
          subst hp2
          rfl
        · have hl2 : legs = [] := hl
          subst hl2
          cases poly with
          | none => rfl
          | some pts => rfl
      · rw [if_neg hst]
        rfl

/-- Once the 15-second gate passes, the patient `getDirections` always
attempts exactly one network fetch. -/
theorem patientGetDirections_snd (start stop : Location)
    (outcome : FetchOutcome) (now : ℤ) (ps : PatientMap.PatientState)
    (hgate : ¬ now - ps.lastRouteFetchTime < 15000) :
    (PatientMap.getDirections start stop outcome now ps).2 = 1 := by
  unfold PatientMap.getDirections
  rw [if_neg hgate]
  cases outcome with
  | networkError => rfl
  | response data =>
    obtain ⟨status, routes⟩ := data
    dsimp only
    by_cases hst : status = "OK"
    · rw [if_pos hst]
      cases routes with
      | nil => rfl
      | cons route rest =>
        obtain ⟨poly, legs⟩ := route
        cases poly with
        | none => rfl
        | some pts =>
          cases legs with
          | nil => rfl
          | cons leg legs2 => rfl
    · rw [if_neg hst]

/-! Claim theorems. -/

/-- Claim C8: the Haversine distance `getDistanceFromLatLonInKm` is
symmetric in its two endpoints and always nonnegative (the real-number
model makes the symmetry exact, hence within any floating-point
tolerance). -/
theorem distance_symm_nonneg (lat1 lon1 lat2 lon2 : ℚ) :
    getDistanceFromLatLonInKm lat1 lon1 lat2 lon2 =
      getDistanceFromLatLonInKm lat2 lon2 lat1 lon1 ∧
    0 ≤ getDistanceFromLatLonInKm lat1 lon1 lat2 lon2 := by
  constructor
  · rw [getDistanceFromLatLonInKm_def lat1 lon1 lat2 lon2,
      getDistanceFromLatLonInKm_def lat2 lon2 lat1 lon1,
      haversine_a_symm lat1 lon1 lat2 lon2]
  · rw [getDistanceFromLatLonInKm_def lat1 lon1 lat2 lon2]
    exact mul_nonneg (by norm_num) (haversine_c_nonneg _)

/-- Claim C1: with a prior origin and a non-empty computed route,
`shouldUpdateRoute` returns true iff more than 15000 ms passed since the
last route fetch and the Haversine displacement from the prior origin
exceeds 0.03 km. -/
theorem shouldUpdateRoute_gate_iff (o : Location) (rc : List Location)
    (t now : ℤ) (loc : Location) (h : rc ≠ []) :
    MapDirections.shouldUpdateRoute (some o) rc t now loc ↔
      (now - t > 15000 ∧
        getDistanceFromLatLonInKm loc.latitude loc.longitude
          o.latitude o.longitude > 0.03) :=
  shouldUpdateRoute_spec o rc t now loc h

/-- Witness for claim C1 at a concrete input. -/
theorem shouldUpdateRoute_gate_iff_witness :
    MapDirections.shouldUpdateRoute (some ⟨0, 0⟩) [⟨3, 4⟩] 0 20000 ⟨1, 1⟩ ↔
      ((20000 : ℤ) - 0 > 15000 ∧
        getDistanceFromLatLonInKm 1 1 0 0 > 0.03) :=
  shouldUpdateRoute_gate_iff ⟨0, 0⟩ [⟨3, 4⟩] 0 20000 ⟨1, 1⟩ (by simp)

/-- Claim C5: the refresh decision is true unconditionally when there is
no prior origin or no route has been computed yet (bootstrap case). -/
theorem shouldUpdateRoute_bootstrap (origin : Option Location)
    (rc : List Location) (t now : ℤ) (loc : Location)
    (h : origin = none ∨ rc = []) :
    MapDirections.shouldUpdateRoute origin rc t now loc := by
  rcases h with h | h
  · subst h
    trivial
  · subst h
    cases origin with
    | none => trivial
    | some o =>
      unfold MapDirections.shouldUpdateRoute
      simp

/-- Witness for claim C5 at a concrete input. -/
theorem shouldUpdateRoute_bootstrap_witness :
    MapDirections.shouldUpdateRoute none [⟨3, 4⟩] 99999 0 ⟨1, 1⟩ :=
  shouldUpdateRoute_bootstrap none [⟨3, 4⟩] 99999 0 ⟨1, 1⟩ (Or.inl rfl)

/-- Claim C2 (code bug evidence): the active responder-side write path of
the tracking screen has no 3-second gate — position fixes at `t = 0` ms
and `t = 2000` ms while status is `"responding"` BOTH reach the shared
record, contradicting the specified write gate (the gated
`updateAmbulanceLocation` is commented out in this screen and its
`UPDATE_INTERVAL_MS` constant is never read). -/
theorem updateWithCurrentLocation_ungated_writes :
    MapDirections.updateWithCurrentLocation (some ("alert-1")) ("responding")
        (some ⟨1, 2⟩) 2000
        (MapDirections.updateWithCurrentLocation (some ("alert-1"))
          ("responding") (some ⟨1, 2⟩) 0 []) =
      [(0, 1, 2), (2000, 1, 2)] := by
  rfl

/-- Claim C3: on any failed directions fetch (network error, non-"OK"
status, malformed response) the resulting route state — on both the
responder and the patient screen — is exactly the 2-point path
`[origin, destination]`, with the straight-line Haversine distance label
and the `ceil(d / 0.5 * 60)`-minute estimate, marked as the fallback
route, and never a stale route from a previous fetch (the result is
independent of the prior route state). -/
theorem fetch_failure_yields_straight_line_fallback
    (start stop : Location) (outcome : FetchOutcome) (now : ℤ)
    (s : MapDirections.TrackState) (ps : PatientMap.PatientState)
    (h : MapDirections.directionsFetchFailed outcome)
    (hgate : ¬ now - ps.lastRouteFetchTime < 15000) :
    MapDirections.getDirections start stop outcome now s =
      { routeCoordinates := [start, stop]
        routeInfo :=
          some ⟨DistanceLabel.straightLine
              (getDistanceFromLatLonInKm start.latitude start.longitude
                stop.latitude stop.longitude),
            DurationLabel.estimate
              ⌈getDistanceFromLatLonInKm start.latitude start.longitude
                stop.latitude stop.longitude / 0.5 * 60⌉⟩
        lastRouteFetchTime := now } ∧
    ((MapDirections.getDirections start stop outcome now s).routeInfo.map
      RouteInfo.isFallback) = some true ∧
    PatientMap.getDirections start stop outcome now ps =
      ({ ps with
          lastRouteFetchTime := now
          routeCoordinates := [start, stop]
          routeInfo :=
            some ⟨DistanceLabel.straightLine
                (getDistanceFromLatLonInKm start.latitude start.longitude
                  stop.latitude stop.longitude),
              DurationLabel.estimate
                ⌈getDistanceFromLatLonInKm start.latitude start.longitude
                  stop.latitude stop.longitude / 0.5 * 60⌉⟩ }, 1) := by
  refine ⟨getDirections_failed start stop outcome now s h, ?_,
    patientGetDirections_failed start stop outcome now ps h hgate⟩
  rw [getDirections_failed start stop outcome now s h]
  rfl

/-- Witness for claim C3 at a concrete input (network error; prior state
holds a stale 1-point route that must be replaced). -/
theorem fetch_failure_yields_straight_line_fallback_witness :
    MapDirections.getDirections ⟨0, 0⟩ ⟨1, 1⟩ FetchOutcome.networkError 20000
        ⟨[⟨5, 5⟩], none, 42⟩ =
      { routeCoordinates := [⟨0, 0⟩, ⟨1, 1⟩]
        routeInfo :=
          some ⟨DistanceLabel.straightLine (getDistanceFromLatLonInKm 0 0 1 1),
            DurationLabel.estimate ⌈getDistanceFromLatLonInKm 0 0 1 1 / 0.5 * 60⌉⟩
        lastRouteFetchTime := 20000 } ∧
    ((MapDirections.getDirections ⟨0, 0⟩ ⟨1, 1⟩ FetchOutcome.networkError 20000
        ⟨[⟨5, 5⟩], none, 42⟩).routeInfo.map RouteInfo.isFallback) = some true ∧
    PatientMap.getDirections ⟨0, 0⟩ ⟨1, 1⟩ FetchOutcome.networkError 20000
        ⟨none, false, none, none, none, [⟨5, 5⟩], none, 0⟩ =
      ({ alertStatus := none, isAmbulanceAssigned := false, patientLocation := none
         ambulanceLocation := none, lastUpdated := none
         routeCoordinates := [⟨0, 0⟩, ⟨1, 1⟩]
         routeInfo :=
           some ⟨DistanceLabel.straightLine (getDistanceFromLatLonInKm 0 0 1 1),
             DurationLabel.estimate ⌈getDistanceFromLatLonInKm 0 0 1 1 / 0.5 * 60⌉⟩
         lastRouteFetchTime := 20000 }, 1) :=
  fetch_failure_yields_straight_line_fallback ⟨0, 0⟩ ⟨1, 1⟩
    FetchOutcome.networkError 20000 ⟨[⟨5, 5⟩], none, 42⟩
    ⟨none, false, none, none, none, [⟨5, 5⟩], none, 0⟩
    trivial (by norm_num)

/-- Claim C4: on a status-"OK" response with a decodable overview polyline
(at least two points) and at least one leg, the resulting route state — on
both screens — is the decoded polyline in order (count at least 2), the
first leg's distance and duration texts verbatim, and is not the
fallback. -/
theorem ok_response_yields_api_route
    (start stop : Location) (data : DirectionsResponse)
    (route : DirectionsRoute) (rest : List DirectionsRoute)
    (pts : List (ℚ × ℚ)) (leg : DirectionsLeg) (legs2 : List DirectionsLeg)
    (now : ℤ) (s : MapDirections.TrackState) (ps : PatientMap.PatientState)
    (hstatus : data.status = "OK") (hroutes : data.routes = route :: rest)
    (hpoly : route.decodedPolyline = some pts)
    (hlegs : route.legs = leg :: legs2)
    (hlen : 2 ≤ pts.length)
    (hgate : ¬ now - ps.lastRouteFetchTime < 15000) :
    MapDirections.getDirections start stop (FetchOutcome.response data) now s =
      { routeCoordinates := pts.map fun p => ⟨p.1, p.2⟩
        routeInfo :=
          some ⟨DistanceLabel.fromApi leg.distanceText,
            DurationLabel.fromApi leg.durationText⟩
        lastRouteFetchTime := now } ∧
    2 ≤ (MapDirections.getDirections start stop (FetchOutcome.response data)
      now s).routeCoordinates.length ∧
    ((MapDirections.getDirections start stop (FetchOutcome.response data)
      now s).routeInfo.map RouteInfo.isFallback) = some false ∧
    PatientMap.getDirections start stop (FetchOutcome.response data) now ps =
      ({ ps with
          lastRouteFetchTime := now
          routeCoordinates := pts.map fun p => ⟨p.1, p.2⟩
          routeInfo :=
            some ⟨DistanceLabel.fromApi leg.distanceText,
              DurationLabel.fromApi leg.durationText⟩ }, 1) := by
  obtain ⟨status, routes⟩ := data
  obtain ⟨poly, legs⟩ := route
  have hstatus2 : status = "OK" := hstatus
  have hroutes2 : routes = ⟨poly, legs⟩ :: rest := hroutes
  have hpoly2 : poly = some pts := hpoly
  have hlegs2 : legs = leg :: legs2 := hlegs
  subst hstatus2 hroutes2 hpoly2 hlegs2
  have hresp :
      MapDirections.getDirections start stop
        (FetchOutcome.response ⟨"OK", ⟨some pts, leg :: legs2⟩ :: rest⟩) now s =
      { routeCoordinates := pts.map fun p => ⟨p.1, p.2⟩
        routeInfo :=
          some ⟨DistanceLabel.fromApi leg.distanceText,
            DurationLabel.fromApi leg.durationText⟩
        lastRouteFetchTime := now } := by
    unfold MapDirections.getDirections
    dsimp only
    rw [if_pos rfl]
  have hpat :
      PatientMap.getDirections start stop
        (FetchOutcome.response ⟨"OK", ⟨some pts, leg :: legs2⟩ :: rest⟩) now ps =
      ({ ps with
          lastRouteFetchTime := now
          routeCoordinates := pts.map fun p => ⟨p.1, p.2⟩
          routeInfo :=
            some ⟨DistanceLabel.fromApi leg.distanceText,
              DurationLabel.fromApi leg.durationText⟩ }, 1) := by
    unfold PatientMap.getDirections
    rw [if_neg hgate]
    dsimp only
    rw [if_pos rfl]
  refine ⟨hresp, ?_, ?_, hpat⟩
  · rw [hresp]
    simpa using hlen
  · rw [hresp]
    rfl

/-- Witness for claim C4 at the concrete Scenario A response (status
"OK", a 2-point decoded polyline, leg texts "1.2 km" / "5 mins"). -/
theorem ok_response_yields_api_route_witness :
    MapDirections.getDirections ⟨37.7749, -122.4194⟩ ⟨37.7849, -122.4094⟩
        (FetchOutcome.response ⟨("OK"),
          [⟨some [(37.7749, -122.4194), (37.7849, -122.4094)],
            [⟨("1.2 km"), ("5 mins")⟩]⟩]⟩) 20000 ⟨[], none, 0⟩ =
      { routeCoordinates :=
          [(37.7749, -122.4194), (37.7849, -122.4094)].map fun p => ⟨p.1, p.2⟩
        routeInfo :=
          some ⟨DistanceLabel.fromApi (DirectionsLeg.mk ("1.2 km") ("5 mins")).distanceText,
            DurationLabel.fromApi (DirectionsLeg.mk ("1.2 km") ("5 mins")).durationText⟩
        lastRouteFetchTime := 20000 } ∧
    2 ≤ (MapDirections.getDirections ⟨37.7749, -122.4194⟩ ⟨37.7849, -122.4094⟩
        (FetchOutcome.response ⟨("OK"),
          [⟨some [(37.7749, -122.4194), (37.7849, -122.4094)],
            [⟨("1.2 km"), ("5 mins")⟩]⟩]⟩) 20000
        ⟨[], none, 0⟩).routeCoordinates.length ∧
    ((MapDirections.getDirections ⟨37.7749, -122.4194⟩ ⟨37.7849, -122.4094⟩
        (FetchOutcome.response ⟨("OK"),
          [⟨some [(37.7749, -122.4194), (37.7849, -122.4094)],
            [⟨("1.2 km"), ("5 mins")⟩]⟩]⟩) 20000
        ⟨[], none, 0⟩).routeInfo.map RouteInfo.isFallback) = some false ∧
    PatientMap.getDirections ⟨37.7749, -122.4194⟩ ⟨37.7849, -122.4094⟩
        (FetchOutcome.response ⟨("OK"),
          [⟨some [(37.7749, -122.4194), (37.7849, -122.4094)],
            [⟨("1.2 km"), ("5 mins")⟩]⟩]⟩) 20000
        ⟨none, false, none, none, none, [], none, 0⟩ =
      ({ alertStatus := none, isAmbulanceAssigned := false
         patientLocation := none, ambulanceLocation := none, lastUpdated := none
         routeCoordinates :=
           [(37.7749, -122.4194), (37.7849, -122.4094)].map fun p => ⟨p.1, p.2⟩
         routeInfo :=
           some ⟨DistanceLabel.fromApi (DirectionsLeg.mk ("1.2 km") ("5 mins")).distanceText,
             DurationLabel.fromApi (DirectionsLeg.mk ("1.2 km") ("5 mins")).durationText⟩
         lastRouteFetchTime := 20000 }, 1) :=
  ok_response_yields_api_route ⟨37.7749, -122.4194⟩ ⟨37.7849, -122.4094⟩
    ⟨("OK"), [⟨some [(37.7749, -122.4194), (37.7849, -122.4094)],
      [⟨("1.2 km"), ("5 mins")⟩]⟩]⟩
    ⟨some [(37.7749, -122.4194), (37.7849, -122.4094)],
      [⟨("1.2 km"), ("5 mins")⟩]⟩ []
    [(37.7749, -122.4194), (37.7849, -122.4094)]
    (DirectionsLeg.mk ("1.2 km") ("5 mins")) [] 20000 ⟨[], none, 0⟩
    ⟨none, false, none, none, none, [], none, 0⟩
    rfl rfl rfl rfl (by norm_num) (by norm_num)

/-- Claim C7: when the refresh evaluation is suppressed — the patient-side
call arrives within 15000 ms of the previous fetch, or the responder-side
`shouldUpdateRoute` decision is false — the directions fetch is skipped
and the route state and `lastRouteFetchTime` are left unchanged;
`lastRouteFetchTime` advances only when the fetch is actually invoked. -/
theorem suppressed_refresh_changes_nothing :
    (∀ (start stop : Location) (outcome : FetchOutcome) (now : ℤ)
        (ps : PatientMap.PatientState),
        now - ps.lastRouteFetchTime < 15000 →
        PatientMap.getDirections start stop outcome now ps = (ps, 0)) ∧
    (∀ (start stop : Location) (outcome : FetchOutcome) (now : ℤ)
        (ps : PatientMap.PatientState),
        (PatientMap.getDirections start stop outcome now ps).2 = 0 →
        PatientMap.getDirections start stop outcome now ps = (ps, 0)) ∧
    (∀ (destination origin : Option Location) (newLoc : Location) (now : ℤ)
        (outcome : FetchOutcome) (s : MapDirections.TrackState),
        ¬ MapDirections.shouldUpdateRoute origin s.routeCoordinates
            s.lastRouteFetchTime now newLoc →
        MapDirections.watchPositionCallback destination origin newLoc now
          outcome s = (s, false)) := by
  refine ⟨?_, ?_, ?_⟩
  · intro start stop outcome now ps h
    unfold PatientMap.getDirections
    rw [if_pos h]
  · intro start stop outcome now ps h
    by_cases hgate : now - ps.lastRouteFetchTime < 15000
    · unfold PatientMap.getDirections
      rw [if_pos hgate]
    · exfalso
      have h1 := patientGetDirections_snd start stop outcome now ps hgate
      rw [h] at h1
      exact absurd h1 (by norm_num)
  · intro destination origin newLoc now outcome s h
    cases destination with
    | none => rfl
    | some dest =>
      unfold MapDirections.watchPositionCallback
      dsimp only
      rw [if_neg h]

/-- Witness for claim C7 at concrete inputs (time gate not yet elapsed on
the patient side; displacement/time conjunction false on the responder
side). -/
theorem suppressed_refresh_changes_nothing_witness :
    PatientMap.getDirections ⟨0, 0⟩ ⟨1, 1⟩ FetchOutcome.networkError 1000
        ⟨none, false, none, none, none, [], none, 0⟩ =
      (⟨none, false, none, none, none, [], none, 0⟩, 0) ∧
    MapDirections.watchPositionCallback (some ⟨1, 1⟩) (some ⟨0, 0⟩) ⟨0, 0⟩ 1000
        FetchOutcome.networkError ⟨[⟨0, 0⟩], none, 0⟩ =
      (⟨[⟨0, 0⟩], none, 0⟩, false) := by
  constructor
  · exact suppressed_refresh_changes_nothing.1 ⟨0, 0⟩ ⟨1, 1⟩
      FetchOutcome.networkError 1000 ⟨none, false, none, none, none, [], none, 0⟩
      (by norm_num)
  · refine suppressed_refresh_changes_nothing.2.2 (some ⟨1, 1⟩) (some ⟨0, 0⟩)
      ⟨0, 0⟩ 1000 FetchOutcome.networkError ⟨[⟨0, 0⟩], none, 0⟩ ?_
    rw [shouldUpdateRoute_spec ⟨0, 0⟩ [⟨0, 0⟩] 0 1000 ⟨0, 0⟩ (by simp)]
    intro hc
    have := hc.1
    norm_num at this

/-- Claim C10: every invocation of the responder `getDirections` sets
`lastRouteFetchTime` to the invocation time regardless of the network
outcome; after a failed fetch the route list is non-empty (the fallback),
so any further refresh within the following 15000 ms is suppressed by the
time conjunct of `shouldUpdateRoute` — a failed fetch consumes the
rate-limit window exactly like a successful one. -/
theorem getDirections_consumes_rate_window :
    (∀ (start stop : Location) (outcome : FetchOutcome) (now : ℤ)
        (s : MapDirections.TrackState),
        (MapDirections.getDirections start stop outcome now s).lastRouteFetchTime
          = now) ∧
    (∀ (start stop : Location) (outcome : FetchOutcome) (now : ℤ)
        (s : MapDirections.TrackState),
        MapDirections.directionsFetchFailed outcome →
        (MapDirections.getDirections start stop outcome now s).routeCoordinates
          ≠ []) ∧
    (∀ (o : Location) (rc : List Location) (lastFetch now2 : ℤ)
        (loc : Location),
        rc ≠ [] → now2 - lastFetch ≤ 15000 →
        ¬ MapDirections.shouldUpdateRoute (some o) rc lastFetch now2 loc) := by
  refine ⟨?_, ?_, ?_⟩
  · intro start stop outcome now s
    cases outcome with
    | networkError => rfl
    | response data =>
      obtain ⟨status, routes⟩ := data
      unfold MapDirections.getDirections
      dsimp only
      by_cases hst : status = "OK"
      · rw [if_pos hst]
        cases routes with
        | nil => rfl
        | cons route rest =>
          obtain ⟨poly, legs⟩ := route
          cases poly with
          | none => rfl
          | some pts =>
            cases legs with
            | nil => rfl
            | cons leg legs2 => rfl
      · rw [if_neg hst]
        rfl
  · intro start stop outcome now s h
    rw [getDirections_failed start stop outcome now s h]
    simp
  · intro o rc lastFetch now2 loc h1 h2 hcontra
    rw [shouldUpdateRoute_spec o rc lastFetch now2 loc h1] at hcontra
    have := hcontra.1
    omega

/-- Witness for claim C10 at concrete inputs (a failed fetch at time
20000, then a refresh attempt 10000 ms later). -/
theorem getDirections_consumes_rate_window_witness :
    (MapDirections.getDirections ⟨0, 0⟩ ⟨1, 1⟩ FetchOutcome.networkError 20000
      ⟨[], none, 0⟩).lastRouteFetchTime = 20000 ∧
    (MapDirections.getDirections ⟨0, 0⟩ ⟨1, 1⟩ FetchOutcome.networkError 20000
      ⟨[], none, 0⟩).routeCoordinates ≠ [] ∧
    ¬ MapDirections.shouldUpdateRoute (some ⟨0, 0⟩) [⟨0, 0⟩, ⟨1, 1⟩] 20000 30000
        ⟨5, 5⟩ :=
  ⟨getDirections_consumes_rate_window.1 ⟨0, 0⟩ ⟨1, 1⟩
      FetchOutcome.networkError 20000 ⟨[], none, 0⟩,
    getDirections_consumes_rate_window.2.1 ⟨0, 0⟩ ⟨1, 1⟩
      FetchOutcome.networkError 20000 ⟨[], none, 0⟩ trivial,
    getDirections_consumes_rate_window.2.2 ⟨0, 0⟩ [⟨0, 0⟩, ⟨1, 1⟩] 20000 30000
      ⟨5, 5⟩ (by simp) (by norm_num)⟩

theorem truthyPair_none_left (b : Option ℚ) :
    PatientMap.truthyPair none b = none := by
  cases b <;> rfl

theorem truthyPair_zero_left (b : Option ℚ) :
    PatientMap.truthyPair (some 0) b = none := by
  cases b with
  | none => rfl
  | some v =>
    unfold PatientMap.truthyPair
    dsimp only
    rw [if_neg (by simp)]

theorem truthyPair_zero_right (a : Option ℚ) :
    PatientMap.truthyPair a (some 0) = none := by
  cases a with
  | none => rfl
  | some v =>
    unfold PatientMap.truthyPair
    dsimp only
    rw [if_neg (by simp)]

/-- Claim C6: when the alert row's ambulance coordinates were never set,
both the initial `fetchAlertData` and the realtime subscription handler
leave the patient screen awaiting dispatch — `isAmbulanceAssigned` is
false, neither the ambulance marker nor the route polyline renders, and
zero directions fetches are attempted. -/
theorem no_ambulance_awaiting_dispatch_no_fetch
    (row : PatientMap.AlertRow) (outcome : FetchOutcome) (now : ℤ)
    (s : PatientMap.PatientState)
    (hlat : row.ambulance_latitude = none)
    (hlng : row.ambulance_longitude = none) :
    (PatientMap.fetchAlertData row outcome now s).2 = 0 ∧
    (PatientMap.fetchAlertData row outcome now s).1.isAmbulanceAssigned = false ∧
    PatientMap.awaitingDispatch (PatientMap.fetchAlertData row outcome now s).1
      = true ∧
    PatientMap.showsAmbulanceMarker
      (PatientMap.fetchAlertData row outcome now s).1 = false ∧
    PatientMap.showsRoutePolyline
      (PatientMap.fetchAlertData row outcome now s).1 = false ∧
    (PatientMap.handleRealtimeUpdate row outcome now s).2 = 0 ∧
    (PatientMap.handleRealtimeUpdate row outcome now s).1.isAmbulanceAssigned
      = false ∧
    PatientMap.awaitingDispatch
      (PatientMap.handleRealtimeUpdate row outcome now s).1 = true ∧
    PatientMap.showsAmbulanceMarker
      (PatientMap.handleRealtimeUpdate row outcome now s).1 = false ∧
    PatientMap.showsRoutePolyline
      (PatientMap.handleRealtimeUpdate row outcome now s).1 = false := by
  have ht : PatientMap.truthyPair row.ambulance_latitude row.ambulance_longitude
      = none := by
    rw [hlat]
    exact truthyPair_none_left _
  refine ⟨?_, ?_, ?_, ?_, ?_, ?_, ?_, ?_, ?_, ?_⟩ <;>
    simp [PatientMap.fetchAlertData, PatientMap.handleRealtimeUpdate, ht,
      PatientMap.showsAmbulanceMarker, PatientMap.showsRoutePolyline,
      PatientMap.awaitingDispatch]

/-- Witness for claim C6 at a concrete alert row with NULL ambulance
columns. -/
theorem no_ambulance_awaiting_dispatch_no_fetch_witness :
    (PatientMap.fetchAlertData ⟨some 1, some 2, none, none, none, ("active")⟩
      FetchOutcome.networkError 20000
      ⟨none, false, none, none, none, [], none, 0⟩).2 = 0 ∧
    (PatientMap.fetchAlertData ⟨some 1, some 2, none, none, none, ("active")⟩
      FetchOutcome.networkError 20000
      ⟨none, false, none, none, none, [], none, 0⟩).1.isAmbulanceAssigned
      = false ∧
    PatientMap.awaitingDispatch
      (PatientMap.fetchAlertData ⟨some 1, some 2, none, none, none, ("active")⟩
        FetchOutcome.networkError 20000
        ⟨none, false, none, none, none, [], none, 0⟩).1 = true ∧
    PatientMap.showsAmbulanceMarker
      (PatientMap.fetchAlertData ⟨some 1, some 2, none, none, none, ("active")⟩
        FetchOutcome.networkError 20000
        ⟨none, false, none, none, none, [], none, 0⟩).1 = false ∧
    PatientMap.showsRoutePolyline
      (PatientMap.fetchAlertData ⟨some 1, some 2, none, none, none, ("active")⟩
        FetchOutcome.networkError 20000
        ⟨none, false, none, none, none, [], none, 0⟩).1 = false ∧
    (PatientMap.handleRealtimeUpdate
      ⟨some 1, some 2, none, none, none, ("active")⟩ FetchOutcome.networkError
      20000 ⟨none, false, none, none, none, [], none, 0⟩).2 = 0 ∧
    (PatientMap.handleRealtimeUpdate
      ⟨some 1, some 2, none, none, none, ("active")⟩ FetchOutcome.networkError
      20000 ⟨none, false, none, none, none, [], none, 0⟩).1.isAmbulanceAssigned
      = false ∧
    PatientMap.awaitingDispatch
      (PatientMap.handleRealtimeUpdate
        ⟨some 1, some 2, none, none, none, ("active")⟩ FetchOutcome.networkError
        20000 ⟨none, false, none, none, none, [], none, 0⟩).1 = true ∧
    PatientMap.showsAmbulanceMarker
      (PatientMap.handleRealtimeUpdate
        ⟨some 1, some 2, none, none, none, ("active")⟩ FetchOutcome.networkError
        20000 ⟨none, false, none, none, none, [], none, 0⟩).1 = false ∧
    PatientMap.showsRoutePolyline
      (PatientMap.handleRealtimeUpdate
        ⟨some 1, some 2, none, none, none, ("active")⟩ FetchOutcome.networkError
        20000 ⟨none, false, none, none, none, [], none, 0⟩).1 = false :=
  no_ambulance_awaiting_dispatch_no_fetch
    ⟨some 1, some 2, none, none, none, ("active")⟩ FetchOutcome.networkError
    20000 ⟨none, false, none, none, none, [], none, 0⟩ rfl rfl

/-- Claim C9: a realtime update whose `ambulance_latitude` or
`ambulance_longitude` equals exactly 0 is treated by the patient screen
identically to an absent position (presence is tested by JavaScript
truthiness): `isAmbulanceAssigned` becomes false, no ambulance marker or
route polyline renders, and no route fetch is attempted; the initial
`fetchAlertData` behaves the same way. -/
theorem zero_coordinate_treated_as_absent
    (row : PatientMap.AlertRow) (outcome : FetchOutcome) (now : ℤ)
    (s : PatientMap.PatientState)
    (h : row.ambulance_latitude = some 0 ∨ row.ambulance_longitude = some 0) :
    PatientMap.handleRealtimeUpdate row outcome now s =
      PatientMap.handleRealtimeUpdate
        { row with ambulance_latitude := none, ambulance_longitude := none }
        outcome now s ∧
    (PatientMap.handleRealtimeUpdate row outcome now s).1.isAmbulanceAssigned
      = false ∧
    (PatientMap.handleRealtimeUpdate row outcome now s).2 = 0 ∧
    PatientMap.showsAmbulanceMarker
      (PatientMap.handleRealtimeUpdate row outcome now s).1 = false ∧
    PatientMap.showsRoutePolyline
      (PatientMap.handleRealtimeUpdate row outcome now s).1 = false ∧
    (PatientMap.fetchAlertData row outcome now s).1.isAmbulanceAssigned
      = false ∧
    (PatientMap.fetchAlertData row outcome now s).2 = 0 := by
  have ht : PatientMap.truthyPair row.ambulance_latitude row.ambulance_longitude
      = none := by
    rcases h with h | h
    · rw [h]
      exact truthyPair_zero_left _
    · rw [h]
      exact truthyPair_zero_right _
  refine ⟨?_, ?_, ?_, ?_, ?_, ?_, ?_⟩ <;>
    simp [PatientMap.fetchAlertData, PatientMap.handleRealtimeUpdate, ht,
      truthyPair_none_left, PatientMap.showsAmbulanceMarker,
      PatientMap.showsRoutePolyline]

/-- Witness for claim C9 at a concrete alert row whose ambulance latitude
is exactly 0 (equator) while its longitude is a normal value. -/
theorem zero_coordinate_treated_as_absent_witness :
    PatientMap.handleRealtimeUpdate
        ⟨some 1, some 2, some 0, some 77, some 5, ("responding")⟩
        FetchOutcome.networkError 20000
        ⟨some ("active"), false, some ⟨1, 2⟩, none, none, [], none, 0⟩ =
      PatientMap.handleRealtimeUpdate
        ⟨some 1, some 2, none, none, some 5, ("responding")⟩
        FetchOutcome.networkError 20000
        ⟨some ("active"), false, some ⟨1, 2⟩, none, none, [], none, 0⟩ ∧
    (PatientMap.handleRealtimeUpdate
        ⟨some 1, some 2, some 0, some 77, some 5, ("responding")⟩
        FetchOutcome.networkError 20000
        ⟨some ("active"), false, some ⟨1, 2⟩, none, none, [], none,
          0⟩).1.isAmbulanceAssigned = false ∧
    (PatientMap.handleRealtimeUpdate
        ⟨some 1, some 2, some 0, some 77, some 5, ("responding")⟩
        FetchOutcome.networkError 20000
        ⟨some ("active"), false, some ⟨1, 2⟩, none, none, [], none, 0⟩).2
      = 0 ∧
    PatientMap.showsAmbulanceMarker
      (PatientMap.handleRealtimeUpdate
        ⟨some 1, some 2, some 0, some 77, some 5, ("responding")⟩
        FetchOutcome.networkError 20000
        ⟨some ("active"), false, some ⟨1, 2⟩, none, none, [], none, 0⟩).1
      = false ∧
    PatientMap.showsRoutePolyline
      (PatientMap.handleRealtimeUpdate
        ⟨some 1, some 2, some 0, some 77, some 5, ("responding")⟩
        FetchOutcome.networkError 20000
        ⟨some ("active"), false, some ⟨1, 2⟩, none, none, [], none, 0⟩).1
      = false ∧
    (PatientMap.fetchAlertData
        ⟨some 1, some 2, some 0, some 77, some 5, ("responding")⟩
        FetchOutcome.networkError 20000
        ⟨some ("active"), false, some ⟨1, 2⟩, none, none, [], none,
          0⟩).1.isAmbulanceAssigned = false ∧
    (PatientMap.fetchAlertData
        ⟨some 1, some 2, some 0, some 77, some 5, ("responding")⟩
        FetchOutcome.networkError 20000
        ⟨some ("active"), false, some ⟨1, 2⟩, none, none, [], none, 0⟩).2
      = 0 :=
  zero_coordinate_treated_as_absent
    ⟨some 1, some 2, some 0, some 77, some 5, ("responding")⟩
    FetchOutcome.networkError 20000
    ⟨some ("active"), false, some ⟨1, 2⟩, none, none, [], none, 0⟩
    (Or.inl rfl)

/-- For contrast with the active write path: the gated
`updateAmbulanceLocation` of the other responder-screen variant does drop
a write arriving 2000 ms after the previous one. -/
theorem updateAmbulanceLocation_gate_drops_early_write :
    MapDirectionsV1.updateAmbulanceLocation (some ("alert-1")) 1 2 2000 0 true []
      = (0, [], false) := by
  rfl
